import Mathlib

/-!
Verification development for the ValoStat tracker
(src/valorant_tracker.py), shallowly embedding the credential loader
(load_api_key), the per-tick status fetch (MatchTracker.fetch_match_status)
and the polling loop (MatchTracker.run).

Modelling conventions:
* The filesystem state seen by load_api_key is `Option (Except String Json)`:
  `none` means the config file does not exist (os.path.exists is false);
  `some (Except.error e)` means the file exists but json.load raises with
  detail `e`; `some (Except.ok j)` means json.load returns the document `j`.
* Python exceptions that the source does not catch are modelled with
  `Except.error`; a raised exception propagates out of the function.
* The behaviour of the single requests.get call is an oracle input
  `HttpResult`: either an HTTP response with a status code, or a raised
  transport exception with its detail string.
* debug_log output is collected in an explicit list of log strings.
* Python str.strip() is modelled on ASCII whitespace.
-/

/-- One character of Python ASCII whitespace as stripped by str.strip(). -/
def isPySpace (c : Char) : Bool :=
  c == ' ' || c == '\t' || c == '\n' || c == '\r' || c == Char.ofNat 11 || c == Char.ofNat 12

/-- Python str.strip(): removes leading and trailing whitespace. -/
def pyStrip (s : String) : String :=
  String.mk (List.rdropWhile isPySpace (List.dropWhile isPySpace s.data))

/-- Python truthiness of a string: non-empty strings are truthy. -/
def pyTruthy (s : String) : Bool :=
  !(s == "")

/-- needle occurs at the start of the haystack (list-of-chars version). -/
def startsWithChars : List Char → List Char → Bool
  | [], _ => true
  | _ :: _, [] => false
  | a :: as, b :: bs => a == b && startsWithChars as bs

/-- Python substring containment, as in the expression needle in haystack. -/
def containsChars (needle : List Char) : List Char → Bool
  | [] => startsWithChars needle []
  | b :: bs => startsWithChars needle (b :: bs) || containsChars needle bs

/-- The characters of the required marker substring "RGAPI-". -/
def markerChars : List Char := "RGAPI-".data

/-- JSON documents as returned by json.load. -/
inductive Json where
  | null
  | bool (b : Bool)
  | num (n : Int)
  | str (s : String)
  | arr (xs : List Json)
  | obj (fields : List (String × Json))

/-- Python config.get(key, default): succeeds on a dict, raises
AttributeError when json.load produced a non-dict document. -/
def dictGet (config : Json) (key : String) (default : Json) : Except String Json :=
  match config with
  | Json.obj fields => Except.ok ((List.lookup key fields).getD default)
  | _ => Except.error "AttributeError: get"

/-- Python value.strip(): succeeds on a string, raises AttributeError on
any other JSON value. -/
def stripJson : Json → Except String String
  | Json.str s => Except.ok (pyStrip s)
  | _ => Except.error "AttributeError: strip"

/-- Embeds load_api_key (src/valorant_tracker.py lines 30-38).
Returns the loaded key (None modelled as `none`) together with the list of
debug_log messages emitted, or `Except.error` when an uncaught Python
exception propagates (json.load on malformed content, config.get on a
non-dict document, .strip() on a non-string field). -/
def load_api_key (fs : Option (Except String Json)) :
    Except String (Option String × List String) :=
  match fs with
  | none =>
    Except.ok (none, ["Config file not found. Please update tracker_config.json."])
  | some (Except.error e) => Except.error e
  | some (Except.ok config) =>
    match dictGet config "api_key" (Json.str "") with
    | Except.error e => Except.error e
    | Except.ok field =>
      match stripJson field with
      | Except.error e => Except.error e
      | Except.ok api_key =>
        Except.ok
          (if pyTruthy api_key && containsChars markerChars api_key.data then
            some api_key
          else none, [])

/-- The URL of the remote status endpoint in fetch_match_status. -/
def matchesUrl : String := "https://americas.api.riotgames.com/valorant/v1/matches"

/-- Behaviour of the single requests.get call on one tick: either an HTTP
response with a status code, or a raised transport exception. -/
inductive HttpResult where
  | response (status : Nat)
  | exn (detail : String)
  deriving DecidableEq

/-- An HTTP request as issued by requests.get: the URL and the value bound
to the X-Riot-Token header (the global RIOT_API_KEY, possibly None). -/
structure HttpRequest where
  url : String
  tokenHeader : Option String
  deriving DecidableEq

/-- Result of one fetch_match_status call: the returned status message, the
list of HTTP requests issued, and the debug_log messages emitted. -/
structure FetchOutput where
  message : String
  requests : List HttpRequest
  logs : List String
  deriving DecidableEq

/-- Embeds MatchTracker.fetch_match_status (src/valorant_tracker.py lines
55-67). The requests.get call is made unconditionally - the source never
tests whether RIOT_API_KEY is None - so every execution records exactly one
issued request carrying the (possibly absent) token as its header value. -/
def fetch_match_status (apiKey : Option String) (net : HttpResult) : FetchOutput :=
  match net with
  | HttpResult.response status =>
    if status = 200 then
      FetchOutput.mk "Match Active - Data Retrieved!" [HttpRequest.mk matchesUrl apiKey] []
    else
      FetchOutput.mk "No Active Match Found." [HttpRequest.mk matchesUrl apiKey] []
  | HttpResult.exn e =>
    FetchOutput.mk "Error fetching data." [HttpRequest.mk matchesUrl apiKey]
      ["API Error: " ++ e]

/-- The guard of the polling loop in MatchTracker.run: the source loops
with while True, so the guard is the constant true. -/
def run_loop_guard : Bool := true

/-- One iteration of MatchTracker.run: fetch the status and emit exactly
that message on the match_data_signal. -/
def run_tick (apiKey : Option String) (net : HttpResult) : String :=
  (fetch_match_status apiKey net).message

/-- MatchTracker.run (src/valorant_tracker.py lines 48-53) observed over a
finite schedule of per-tick network behaviours: the loop body publishes one
message per tick, in tick order. -/
def run_ticks (apiKey : Option String) (nets : List HttpResult) : List String :=
  List.map (run_tick apiKey) nets

/-- C1 counterexample: on a tick where the access token is Absent
(load_api_key returned None), fetch_match_status still issues the HTTP
request (the requests list is non-empty, carrying a None header), and when
the network answers 200 the message is not the transport-error message.
This refutes the claim that an Absent token yields the transport-error
outcome without performing any network I/O. -/
theorem fetch_absent_token_counterexample :
    (fetch_match_status none (HttpResult.response 200)).requests =
      [HttpRequest.mk matchesUrl none] ∧
    (fetch_match_status none (HttpResult.response 200)).message ≠ "Error fetching data." := by
  exact ⟨rfl, by decide⟩

/-- C1 amended: on a tick with an Absent token, fetch_match_status still
issues exactly one HTTP request (with None as the header value) and
classifies the network outcome exactly as it does for a present token; the
transport-error message arises only when the request raises. -/
theorem fetch_absent_still_requests (net : HttpResult) :
    (fetch_match_status none net).requests = [HttpRequest.mk matchesUrl none] ∧
    (fetch_match_status none net).message =
      (fetch_match_status (some "RGAPI-k") net).message := by
  cases net with
  | response status => by_cases h : status = 200 <;> simp [fetch_match_status, h]
  | exn e => simp [fetch_match_status]

/-- C2: with a present token, fetch_match_status classifies the remote
check exhaustively: a 200 response yields exactly
"Match Active - Data Retrieved!", any other status code yields exactly
"No Active Match Found.", and a transport exception yields exactly
"Error fetching data." while forwarding the exception detail to the
diagnostics sink. -/
theorem fetch_present_classification (k d : String) (code : Nat) :
    (fetch_match_status (some k) (HttpResult.response code)).message =
      (if code = 200 then "Match Active - Data Retrieved!" else "No Active Match Found.") ∧
    (fetch_match_status (some k) (HttpResult.exn d)).message = "Error fetching data." ∧
    (fetch_match_status (some k) (HttpResult.exn d)).logs = ["API Error: " ++ d] := by
  refine ⟨?_, rfl, rfl⟩
  by_cases h : code = 200 <;> simp [fetch_match_status, h]

/-- C3: MatchTracker.run publishes exactly one StatusMessage per tick,
unconditionally: over any schedule of network behaviours the emitted list
has one entry per tick, and every emitted message is one of the three
defined status strings (fetch_match_status is total, so no runtime error
escapes to terminate the loop). -/
theorem run_exactly_one_publish_per_tick (key : Option String) (nets : List HttpResult) :
    (run_ticks key nets).length = nets.length ∧
    (run_ticks key nets).all
      (fun m => m == "Match Active - Data Retrieved!" || m == "No Active Match Found." ||
        m == "Error fetching data.") = true := by
  constructor
  · simp [run_ticks]
  · rw [List.all_eq_true]
    intro m hm
    rw [run_ticks, List.mem_map] at hm
    obtain ⟨n, hn, hmeq⟩ := hm
    subst hmeq
    cases n with
    | response status => by_cases h : status = 200 <;> simp [run_tick, fetch_match_status, h]
    | exn e => simp [run_tick, fetch_match_status]

/-- C8 counterexample: MatchTracker.run exposes no cancellation mechanism.
Its loop guard is the constant true (while True), and every scheduled tick
publishes: over a three-tick schedule, all three ticks publish, so there is
no signal after which further publishes stop. -/
theorem run_no_cancellation_counterexample :
    run_loop_guard = true ∧
    run_ticks (some "RGAPI-k")
      [HttpResult.response 200, HttpResult.response 404, HttpResult.exn "boom"] =
      ["Match Active - Data Retrieved!", "No Active Match Found.", "Error fetching data."] := by
  exact ⟨rfl, rfl⟩

/-- C8 amended: the original MatchTracker.run has no cancellation
mechanism: its loop guard is the constant true and each iteration
unconditionally publishes, so one message is published for every tick until
the process is terminated externally. -/
theorem run_publishes_every_tick_unconditionally (key : Option String) (nets : List HttpResult) :
    run_loop_guard = true ∧ (run_ticks key nets).length = nets.length := by
  exact ⟨rfl, by simp [run_ticks]⟩

/-- C9: the outcome-to-message classification is total and deterministic:
the message depends only on the network outcome (not on the token), and
every possible outcome maps to one of the three defined messages. -/
theorem classification_total_deterministic (k1 k2 : Option String) (net : HttpResult) :
    (fetch_match_status k1 net).message = (fetch_match_status k2 net).message ∧
    ((fetch_match_status k1 net).message == "Match Active - Data Retrieved!" ||
     (fetch_match_status k1 net).message == "No Active Match Found." ||
     (fetch_match_status k1 net).message == "Error fetching data.") = true := by
  cases net with
  | response status => by_cases h : status = 200 <;> simp [fetch_match_status, h]
  | exn e => simp [fetch_match_status]

/-- A string whose first character, if any, is not whitespace. -/
def noLeadingSpace (s : String) : Bool :=
  match s.data.head? with
  | none => true
  | some c => !isPySpace c

/-- A string whose last character, if any, is not whitespace. -/
def noTrailingSpace (s : String) : Bool :=
  match s.data.getLast? with
  | none => true
  | some c => !isPySpace c

/-- The head of a dropWhile result never satisfies the dropped predicate. -/
theorem dropWhile_head_false (p : Char → Bool) (l : List Char) (c : Char) (cs : List Char)
    (h : List.dropWhile p l = c :: cs) : p c = false := by
  induction l with
  | nil => simp [List.dropWhile] at h
  | cons a t ih =>
    rw [List.dropWhile_cons] at h
    by_cases hp : p a
    · rw [if_pos hp] at h
      exact ih h
    · rw [if_neg hp] at h
      simp only [List.cons.injEq] at h
      obtain ⟨rfl, -⟩ := h
      simpa using hp

/-- pyStrip leaves no leading whitespace. -/
theorem pyStrip_noLeading (s : String) : noLeadingSpace (pyStrip s) = true := by
  unfold noLeadingSpace pyStrip
  cases hm : List.rdropWhile isPySpace (List.dropWhile isPySpace s.data) with
  | nil => rfl
  | cons c cs =>
    have hpre := List.rdropWhile_prefix isPySpace (List.dropWhile isPySpace s.data)
    rw [hm] at hpre
    obtain ⟨t, ht⟩ := hpre
    have hc : isPySpace c = false := by
      refine dropWhile_head_false isPySpace s.data c (cs ++ t) ?_
      rw [← ht]
      simp
    simp [hc]

/-- pyStrip leaves no trailing whitespace. -/
theorem pyStrip_noTrailing (s : String) : noTrailingSpace (pyStrip s) = true := by
  unfold noTrailingSpace pyStrip
  show (match (List.reverse
      ((List.dropWhile isPySpace s.data).reverse.dropWhile isPySpace)).getLast? with
    | none => true
    | some c => !isPySpace c) = true
  rw [List.getLast?_reverse]
  cases hm : List.dropWhile isPySpace (List.dropWhile isPySpace s.data).reverse with
  | nil => rfl
  | cons c cs =>
    have hc : isPySpace c = false :=
      dropWhile_head_false isPySpace (List.dropWhile isPySpace s.data).reverse c cs hm
    simp [hc]

/-- C4 counterexample: when the config file exists but its content is
malformed JSON, json.load raises and load_api_key propagates the parse
error instead of returning Absent - startup is fatal, not graceful. -/
theorem load_api_key_malformed_raises_counterexample :
    load_api_key (some (Except.error "Expecting value: line 1 column 1 (char 0)")) =
      Except.error "Expecting value: line 1 column 1 (char 0)" := rfl

/-- C4 amended: graceful degradation covers only the missing-file case:
when the file is absent load_api_key returns Absent with one diagnostic and
the process continues, but when the file exists with malformed content the
parse exception propagates uncaught to the caller. -/
theorem load_api_key_graceful_only_for_missing_file (e : String) :
    load_api_key none =
      Except.ok (none, ["Config file not found. Please update tracker_config.json."]) ∧
    load_api_key (some (Except.error e)) = Except.error e :=
  ⟨rfl, rfl⟩

/-- The loading behaviour claimed for load_api_key, written from the spec
words: Absent when the file is missing, the field is missing, the field is
empty after trimming, or the trimmed field fails the marker-containment
check; otherwise the trimmed token. Stated for configurations whose
api_key field, when present, is a string. -/
def load_api_key_spec (fs : Option (Except String Json)) : Option String :=
  match fs with
  | some (Except.ok (Json.obj fields)) =>
    match List.lookup "api_key" fields with
    | some (Json.str s) =>
      if pyTruthy (pyStrip s) && containsChars markerChars (pyStrip s).data then
        some (pyStrip s)
      else none
    | _ => none
  | _ => none

/-- Diagnostic messages load_api_key emits, by filesystem state. -/
def load_api_key_logs (fs : Option (Except String Json)) : List String :=
  match fs with
  | none => ["Config file not found. Please update tracker_config.json."]
  | _ => []

/-- Configurations on which the field access and strip of load_api_key
cannot raise: the file is missing, or the file parses to a dict whose
api_key field (when present) is a string. -/
def goodConfig (fs : Option (Except String Json)) : Bool :=
  match fs with
  | none => true
  | some (Except.error _) => false
  | some (Except.ok (Json.obj fields)) =>
    match List.lookup "api_key" fields with
    | none => true
    | some (Json.str _) => true
    | some _ => false
  | some (Except.ok _) => false

/-- C5 counterexample: a configuration whose api_key field is present but
not a string (here the number 42) satisfies none of the four claimed
Absent conditions, yet load_api_key neither returns Absent nor a trimmed
token: the .strip() call raises AttributeError and the exception
propagates. -/
theorem load_api_key_nonstring_field_counterexample :
    load_api_key (some (Except.ok (Json.obj [("api_key", Json.num 42)]))) =
      Except.error "AttributeError: strip" := rfl

/-- C5 amended: on every configuration where the file is missing or parses
to a dict whose api_key field (when present) is a string, load_api_key
returns Absent exactly when the file is missing, the field is missing, the
field is empty after trimming, or the trimmed field does not contain the
marker substring; otherwise it returns the trimmed token. On other
configurations the underlying exception propagates instead. -/
theorem load_api_key_matches_spec (fs : Option (Except String Json))
    (h : goodConfig fs = true) :
    load_api_key fs = Except.ok (load_api_key_spec fs, load_api_key_logs fs) := by
  cases fs with
  | none => rfl
  | some r =>
    cases r with
    | error e => simp [goodConfig] at h
    | ok config =>
      cases config with
      | null => simp [goodConfig] at h
      | bool b => simp [goodConfig] at h
      | num n => simp [goodConfig] at h
      | str s => simp [goodConfig] at h
      | arr xs => simp [goodConfig] at h
      | obj fields =>
        cases hf : List.lookup "api_key" fields with
        | none =>
          have hc : (pyTruthy (pyStrip "") &&
              containsChars markerChars (pyStrip "").data) = false := by decide
          simp [load_api_key, dictGet, hf, stripJson, load_api_key_spec,
            load_api_key_logs, hc]
        | some field =>
          cases field with
          | str s =>
            simp [load_api_key, dictGet, hf, stripJson, load_api_key_spec,
              load_api_key_logs]
          | null => simp [goodConfig, hf] at h
          | bool b => simp [goodConfig, hf] at h
          | num n => simp [goodConfig, hf] at h
          | arr xs => simp [goodConfig, hf] at h
          | obj f2 => simp [goodConfig, hf] at h

/-- C5 amended witness: a concrete well-formed configuration evaluated
through the amended equivalence. -/
theorem load_api_key_matches_spec_witness :
    load_api_key (some (Except.ok (Json.obj [("api_key", Json.str " RGAPI-abc ")]))) =
      Except.ok
        (load_api_key_spec
          (some (Except.ok (Json.obj [("api_key", Json.str " RGAPI-abc ")]))),
        load_api_key_logs
          (some (Except.ok (Json.obj [("api_key", Json.str " RGAPI-abc ")])))) :=
  load_api_key_matches_spec
    (some (Except.ok (Json.obj [("api_key", Json.str " RGAPI-abc ")]))) (by decide)

/-- C6 counterexample: with an existing config file holding an empty dict,
load_api_key returns Absent with an empty diagnostics list - this Absent
return emits no diagnostic message, refuting the claim that every Absent
return emits exactly one. -/
theorem load_api_key_absent_no_log_counterexample :
    load_api_key (some (Except.ok (Json.obj []))) = Except.ok (none, []) := rfl

/-- Diagnostics emitted by a load_api_key execution that does not raise. -/
def okLogs : Except String (Option String × List String) → List String
  | Except.ok r => r.2
  | Except.error _ => []

/-- C6 amended: load_api_key emits exactly one diagnostic message when the
config file is missing; every execution on an existing file emits no
diagnostics at all, whether it returns Absent, returns a token, or
raises. -/
theorem load_api_key_diagnostics (r : Except String Json) :
    load_api_key none =
      Except.ok (none, ["Config file not found. Please update tracker_config.json."]) ∧
    okLogs (load_api_key (some r)) = [] := by
  refine ⟨rfl, ?_⟩
  cases r with
  | error e => rfl
  | ok config =>
    cases config with
    | null => rfl
    | bool b => rfl
    | num n => rfl
    | str s => rfl
    | arr xs => rfl
    | obj fields =>
      cases hf : List.lookup "api_key" fields with
      | none => simp [load_api_key, dictGet, hf, stripJson, okLogs]
      | some field =>
        cases field with
        | str s => simp [load_api_key, dictGet, hf, stripJson, okLogs]
        | null => simp [load_api_key, dictGet, hf, stripJson, okLogs]
        | bool b => simp [load_api_key, dictGet, hf, stripJson, okLogs]
        | num n => simp [load_api_key, dictGet, hf, stripJson, okLogs]
        | arr xs => simp [load_api_key, dictGet, hf, stripJson, okLogs]
        | obj f2 => simp [load_api_key, dictGet, hf, stripJson, okLogs]

/-- C7 counterexample: the token "devRGAPI-123" contains the marker only in
the middle, not as a prefix, yet load_api_key accepts and returns it: the
source checks substring containment (the Python in operator), not a
prefix. -/
theorem load_api_key_marker_not_prefix_counterexample :
    load_api_key (some (Except.ok (Json.obj [("api_key", Json.str "devRGAPI-123")]))) =
      Except.ok (some "devRGAPI-123", []) ∧
    startsWithChars markerChars "devRGAPI-123".data = false := by
  exact ⟨rfl, by decide⟩

/-- C7 amended: a candidate field string is accepted exactly when, after
trimming, it is non-empty and contains "RGAPI-" anywhere as a substring;
the marker is not required to sit at the start of the token. -/
theorem load_api_key_marker_containment (s : String) :
    load_api_key (some (Except.ok (Json.obj [("api_key", Json.str s)]))) =
      Except.ok
        (if pyTruthy (pyStrip s) && containsChars markerChars (pyStrip s).data then
          some (pyStrip s)
        else none, []) := rfl

/-- C10: whenever load_api_key returns a token, the token is non-empty,
has no leading or trailing whitespace character, and contains the marker
substring "RGAPI-"; in particular the empty string is never returned. -/
theorem load_api_key_token_invariant (fs : Option (Except String Json)) (t : String)
    (logs : List String) (h : load_api_key fs = Except.ok (some t, logs)) :
    t ≠ "" ∧ noLeadingSpace t = true ∧ noTrailingSpace t = true ∧
      containsChars markerChars t.data = true := by
  cases fs with
  | none => simp [load_api_key] at h
  | some r =>
    cases r with
    | error e => simp [load_api_key] at h
    | ok config =>
      cases config with
      | null => simp [load_api_key, dictGet] at h
      | bool b => simp [load_api_key, dictGet] at h
      | num n => simp [load_api_key, dictGet] at h
      | str s => simp [load_api_key, dictGet] at h
      | arr xs => simp [load_api_key, dictGet] at h
      | obj fields =>
        cases hf : (List.lookup "api_key" fields).getD (Json.str "") with
        | null => simp [load_api_key, dictGet, hf, stripJson] at h
        | bool b => simp [load_api_key, dictGet, hf, stripJson] at h
        | num n => simp [load_api_key, dictGet, hf, stripJson] at h
        | arr xs => simp [load_api_key, dictGet, hf, stripJson] at h
        | obj f2 => simp [load_api_key, dictGet, hf, stripJson] at h
        | str s =>
          rw [show load_api_key (some (Except.ok (Json.obj fields))) =
              Except.ok
                (if pyTruthy (pyStrip s) &&
                    containsChars markerChars (pyStrip s).data then
                  some (pyStrip s)
                else none, []) by
            simp [load_api_key, dictGet, hf, stripJson]] at h
          by_cases hc : (pyTruthy (pyStrip s) &&
              containsChars markerChars (pyStrip s).data) = true
          · rw [if_pos hc] at h
            rw [Bool.and_eq_true] at hc
            obtain ⟨hpt, hcc⟩ := hc
            have hinj : some (pyStrip s) = some t ∧ ([] : List String) = logs := by
              simpa using h
            obtain ⟨hts, -⟩ := hinj
            have hts2 : pyStrip s = t := by simpa using hts
            subst hts2
            refine ⟨?_, pyStrip_noLeading s, pyStrip_noTrailing s, hcc⟩
            intro h0
            rw [pyTruthy, h0] at hpt
            simp at hpt
          · rw [if_neg hc] at h
            simp at h

/-- C10 witness: the token invariant instantiated at a concrete
configuration from which load_api_key returns the token "RGAPI-abc". -/
theorem load_api_key_token_invariant_witness :
    "RGAPI-abc" ≠ "" ∧ noLeadingSpace "RGAPI-abc" = true ∧
      noTrailingSpace "RGAPI-abc" = true ∧
      containsChars markerChars "RGAPI-abc".data = true :=
  load_api_key_token_invariant
    (some (Except.ok (Json.obj [("api_key", Json.str "  RGAPI-abc  ")]))) "RGAPI-abc" []
    (by rfl)
